import Mathlib

/-!
# Offer Engine — shallow embedding

A shallow embedding of the coupon/offer engine from
`src/ecommerce/models/offers.js`, together with theorems settling the
specification's claims about it.

Modelling conventions:
* JS numbers (amounts, values, discounts) are rationals `ℚ`.
* Dates are integer timestamps `ℤ`; "now" is passed explicitly.
* `null`/`undefined` fields are `Option`.
* JS truthiness of a numeric field (`if (this.maximumDiscount && …)`,
  `if (offer.usageLimit && …)`) is `some m` with `m ≠ 0`; truthiness of an
  identifier (`userId`) is `Option.isSome`.
* The Mongo collection behind `findOne` is a `List Offer`; the query
  `findOne({code, isActive:true, startDate:{$lte:now}, endDate:{$gte:now}})`
  is `List.find?` with the corresponding boolean predicate.
* Thrown `Error`s become an `Except CouponError` result; the error message
  strings of the source are reproduced by `CouponError.message`.
-/

namespace OfferEngine

/-- One entry of `usageHistory` (sub-document of the offer schema). -/
structure UsageRecord where
  userId : String
  orderId : Option String
  discountApplied : ℚ
  appliedAt : ℤ
  deriving Repr, DecidableEq

/-- The `type` enum of the offer schema: `['percentage', 'fixed']`. -/
inductive OfferType where
  | percentage
  | fixed
  deriving Repr, DecidableEq

/-- The `Offer` document, restricted to the fields the engine reads. -/
structure Offer where
  code : String
  type : OfferType
  value : ℚ
  minimumOrderAmount : ℚ
  maximumDiscount : Option ℚ
  usageLimit : Option ℕ
  timesUsed : ℕ
  startDate : ℤ
  endDate : ℤ
  isActive : Bool
  userSpecific : Bool
  allowedUsers : List String
  usageHistory : List UsageRecord
  deriving Repr, DecidableEq

/-- The raw discount before any capping: `orderAmount * value / 100` for a
percentage offer, `value` for a fixed offer (`discount` stays `0` for any
other `type`, as in the source's if/else-if chain). -/
def rawDiscount (o : Offer) (orderAmount : ℚ) : ℚ :=
  match o.type with
  | .percentage => orderAmount * o.value / 100
  | .fixed => o.value

/-- `offerSchema.methods.calculateDiscount`.  The cap test mirrors the JS
truthiness of `if (this.maximumDiscount && discount > this.maximumDiscount)`:
an absent (`none`) or zero cap is skipped. -/
def calculateDiscount (o : Offer) (orderAmount : ℚ) : ℚ :=
  let discount := rawDiscount o orderAmount
  let discount :=
    match o.maximumDiscount with
    | some m => if m ≠ 0 ∧ m < discount then m else discount
    | none => discount
  min discount orderAmount

/-- The error taxonomy of `validateCoupon`'s `throw` sites. -/
inductive CouponError where
  | notFoundOrExpired
  | minimumNotMet (minimumOrderAmount : ℚ)
  | usageLimitExceeded
  | userNotEligible
  deriving Repr, DecidableEq

/-- The user-facing message attached to each thrown `Error` in the source. -/
def CouponError.message : CouponError → String
  | .notFoundOrExpired => "Invalid or expired coupon code"
  | .minimumNotMet m => "Minimum order amount of ₹" ++ toString m ++ " required"
  | .usageLimitExceeded => "Coupon usage limit exceeded"
  | .userNotEligible => "This coupon is not available for your account"

/-- JS `code.toUpperCase()`: uppercase every character. -/
def jsToUpperCase (s : String) : String :=
  ⟨s.data.map Char.toUpper⟩

/-- The `findOne` query predicate of `validateCoupon`: code equality after
uppercasing the input, `isActive: true`, and now within `[startDate, endDate]`
(`$lte`/`$gte` are inclusive). -/
def offerMatches (code : String) (now : ℤ) (o : Offer) : Bool :=
  o.code == jsToUpperCase code && o.isActive &&
    decide (o.startDate ≤ now) && decide (now ≤ o.endDate)

/-- The `if (offer.usageLimit && offer.timesUsed >= offer.usageLimit)` test:
a `null` (or zero, by JS truthiness) limit never trips it. -/
def usageLimitHit (o : Offer) : Bool :=
  match o.usageLimit with
  | none => false
  | some l => decide (l ≠ 0) && decide (l ≤ o.timesUsed)

/-- The last step of `validateCoupon`: the user-specific restriction check
followed by `return offer`.  The source guards it with
`if (offer.userSpecific && userId)`: with no `userId` the whole check is
skipped and the offer is returned. -/
def userCheck (offer : Offer) (userId : Option String) : Except CouponError Offer :=
  match userId with
  | none => .ok offer
  | some u =>
    if offer.userSpecific && !(offer.allowedUsers.contains u) then
      .error .userNotEligible
    else
      .ok offer

/-- `offerSchema.statics.validateCoupon`.  The store is the collection the
static queries; the checks appear in source order. -/
def validateCoupon (store : List Offer) (code : String) (orderAmount : ℚ)
    (userId : Option String) (now : ℤ) : Except CouponError Offer :=
  match store.find? (offerMatches code now) with
  | none => .error .notFoundOrExpired
  | some offer =>
    if orderAmount < offer.minimumOrderAmount then
      .error (.minimumNotMet offer.minimumOrderAmount)
    else if usageLimitHit offer then
      .error .usageLimitExceeded
    else
      userCheck offer userId

/-- `offerSchema.methods.applyCoupon`: increment `timesUsed`, push one
`usageHistory` entry (`orderId || null` is the `Option`), save, return the
updated document.  The source has no failure branch: the function is total. -/
def applyCoupon (o : Offer) (userId : String) (orderId : Option String)
    (discountApplied : ℚ) (now : ℤ) : Offer :=
  { o with
    timesUsed := o.timesUsed + 1
    usageHistory := o.usageHistory ++
      [{ userId := userId, orderId := orderId,
         discountApplied := discountApplied, appliedAt := now }] }

/-- The discount computation as the spec words it (for refinement comparison
with `calculateDiscount`): clamp to `maximumDiscount` whenever it is set —
with no exception for a zero cap — then clamp to `orderAmount`. -/
def calculateDiscountSpecWording (o : Offer) (orderAmount : ℚ) : ℚ :=
  let discount := rawDiscount o orderAmount
  let discount :=
    match o.maximumDiscount with
    | some m => if m < discount then m else discount
    | none => discount
  min discount orderAmount

/-- The `WELCOME10` scenario offer of the spec:
`{code:"WELCOME10", type:"percentage", value:10, minimumOrderAmount:500,
maximumDiscount:200}`. -/
def welcome10 : Offer :=
  { code := "WELCOME10", type := .percentage, value := 10
    minimumOrderAmount := 500, maximumDiscount := some 200
    usageLimit := none, timesUsed := 0
    startDate := 0, endDate := 100, isActive := true
    userSpecific := false, allowedUsers := [], usageHistory := [] }

/-- A schema-valid fixed offer whose `maximumDiscount` is set to `0`
(the schema only requires `maximumDiscount ≥ 0`, and its percentage-only
validator accepts any value on fixed offers). -/
def zeroCapOffer : Offer :=
  { code := "ZEROCAP", type := .fixed, value := 5
    minimumOrderAmount := 0, maximumDiscount := some 0
    usageLimit := none, timesUsed := 0
    startDate := 0, endDate := 100, isActive := true
    userSpecific := false, allowedUsers := [], usageHistory := [] }

/-- A user-specific offer restricted to the single user `alice`. -/
def vipOffer : Offer :=
  { code := "VIPONLY", type := .fixed, value := 50
    minimumOrderAmount := 0, maximumDiscount := none
    usageLimit := none, timesUsed := 0
    startDate := 0, endDate := 100, isActive := true
    userSpecific := true, allowedUsers := ["alice"], usageHistory := [] }

/-- An offer with `usageLimit = 1` and `timesUsed = 0` (one redemption left). -/
def limitOneOffer : Offer :=
  { code := "LIMIT1", type := .fixed, value := 10
    minimumOrderAmount := 0, maximumDiscount := none
    usageLimit := some 1, timesUsed := 0
    startDate := 0, endDate := 100, isActive := true
    userSpecific := false, allowedUsers := [], usageHistory := [] }

/-! ## Theorems settling the claims -/

/-- The user-specific check either returns the offer it was given or fails
with `userNotEligible`; it never produces any other result. -/
lemma userCheck_cases (o : Offer) (userId : Option String) :
    userCheck o userId = .ok o ∨ userCheck o userId = .error .userNotEligible := by
  cases userId with
  | none => exact Or.inl rfl
  | some u =>
    by_cases hc : (o.userSpecific && !(o.allowedUsers.contains u)) = true
    · right
      simp only [userCheck]
      rw [if_pos hc]
    · left
      simp only [userCheck]
      rw [if_neg hc]

/-- Once the lookup has found `o` and the minimum-amount check has passed,
the remaining checks can only answer `.ok o`, `.error .usageLimitExceeded`
or `.error .userNotEligible`. -/
lemma validateCoupon_found_tail (store : List Offer) (code : String)
    (orderAmount : ℚ) (userId : Option String) (now : ℤ) (o : Offer)
    (hfind : store.find? (offerMatches code now) = some o)
    (hmin : ¬ orderAmount < o.minimumOrderAmount) :
    validateCoupon store code orderAmount userId now
      = (if usageLimitHit o then .error .usageLimitExceeded
         else userCheck o userId) := by
  simp only [validateCoupon, hfind]
  rw [if_neg hmin]

/-- C1 (counterexample): the claim's clamping rule says a *set* `maximumDiscount`
always caps the discount, but the source's cap test is the JS-truthy
`if (this.maximumDiscount && …)`, which skips a cap of `0`.  On the fixed
offer with `value = 5` and `maximumDiscount = 0`, at `orderAmount = 10`, the
code returns `5` while the claim's rule yields `0`. -/
theorem C1_calculateDiscount_counterexample :
    calculateDiscount zeroCapOffer 10 = 5
    ∧ calculateDiscountSpecWording zeroCapOffer 10 = 0
    ∧ calculateDiscount zeroCapOffer 10 ≠ calculateDiscountSpecWording zeroCapOffer 10 := by
  refine ⟨?_, ?_, ?_⟩ <;>
    norm_num [calculateDiscount, calculateDiscountSpecWording, rawDiscount, zeroCapOffer]

/-- C1 (amended): whenever `maximumDiscount` is unset or set to a nonzero
value, `calculateDiscount` computes exactly the claim's rule — raw discount
(`orderAmount * value / 100` for percentage, `value` for fixed), clamped to
`maximumDiscount` when exceeded, then to `orderAmount`; and the two WELCOME10
scenarios hold: `orderAmount = 600 ↦ 60` and `orderAmount = 3000 ↦ 200`. -/
theorem C1_calculateDiscount_amended (o : Offer) (orderAmount : ℚ)
    (h : o.maximumDiscount = none ∨ ∃ m, o.maximumDiscount = some m ∧ m ≠ 0) :
    calculateDiscount o orderAmount = calculateDiscountSpecWording o orderAmount
    ∧ calculateDiscount welcome10 600 = 60
    ∧ calculateDiscount welcome10 3000 = 200 := by
  refine ⟨?_, ?_, ?_⟩
  · obtain hnone | ⟨m, hm, hm0⟩ := h
    · simp [calculateDiscount, calculateDiscountSpecWording, hnone]
    · simp [calculateDiscount, calculateDiscountSpecWording, hm, hm0]
  · norm_num [calculateDiscount, rawDiscount, welcome10]
  · norm_num [calculateDiscount, rawDiscount, welcome10]

/-- Witness for `C1_calculateDiscount_amended` at the WELCOME10 offer,
whose `maximumDiscount` is `some 200 ≠ 0`. -/
theorem C1_calculateDiscount_amended_witness :
    calculateDiscount welcome10 600 = calculateDiscountSpecWording welcome10 600
    ∧ calculateDiscount welcome10 600 = 60
    ∧ calculateDiscount welcome10 3000 = 200 :=
  C1_calculateDiscount_amended welcome10 600 (Or.inr ⟨200, rfl, by norm_num⟩)

/-- C2 (code bug): for a `userSpecific` offer passing every other check, the
source's guard `if (offer.userSpecific && userId)` skips the eligibility check
entirely when `userId` is absent, so validation *succeeds* with no `userId` —
the claim (and spec step 5) says it must fail with `UserNotEligible`.  With a
`userId` present the code does behave as claimed: `bob` (not allowed) is
rejected, `alice` (allowed) is accepted. -/
theorem C2_userSpecific_absent_userId_bug :
    validateCoupon [vipOffer] "VIPONLY" 100 none 5 = .ok vipOffer
    ∧ validateCoupon [vipOffer] "VIPONLY" 100 (some "bob") 5 = .error .userNotEligible
    ∧ validateCoupon [vipOffer] "VIPONLY" 100 (some "alice") 5 = .ok vipOffer := by
  refine ⟨?_, ?_, ?_⟩ <;> rfl

/-- C3: once the lookup has found an active, in-window offer `o`,
`validateCoupon` fails with `MinimumNotMet` (carrying `o`'s minimum) exactly
when `orderAmount < o.minimumOrderAmount`; in particular at
`orderAmount = o.minimumOrderAmount` it never raises `MinimumNotMet`
(boundary inclusive, since the source test is a strict `<`). -/
theorem C3_minimumNotMet_iff (store : List Offer) (code : String)
    (orderAmount : ℚ) (userId : Option String) (now : ℤ) (o : Offer)
    (hfind : store.find? (offerMatches code now) = some o) :
    (validateCoupon store code orderAmount userId now
        = .error (.minimumNotMet o.minimumOrderAmount)
      ↔ orderAmount < o.minimumOrderAmount) := by
  by_cases h : orderAmount < o.minimumOrderAmount
  · refine iff_of_true ?_ h
    simp only [validateCoupon, hfind]
    rw [if_pos h]
  · refine iff_of_false ?_ h
    rw [validateCoupon_found_tail store code orderAmount userId now o hfind h]
    rcases userCheck_cases o userId with huc | huc <;> split <;> simp [huc]

/-- Witness for `C3_minimumNotMet_iff`: the FLAT100-style scenario — for the
WELCOME10 offer (minimum 500), `orderAmount = 400` fails with `MinimumNotMet`
and `orderAmount = 500` does not. -/
theorem C3_minimumNotMet_iff_witness :
    (validateCoupon [welcome10] "welcome10" 400 none 5
        = .error (.minimumNotMet welcome10.minimumOrderAmount)
      ↔ (400 : ℚ) < welcome10.minimumOrderAmount)
    ∧ (validateCoupon [welcome10] "welcome10" 500 none 5
        = .error (.minimumNotMet welcome10.minimumOrderAmount)
      ↔ (500 : ℚ) < welcome10.minimumOrderAmount) :=
  ⟨C3_minimumNotMet_iff [welcome10] "welcome10" 400 none 5 welcome10 rfl,
   C3_minimumNotMet_iff [welcome10] "welcome10" 500 none 5 welcome10 rfl⟩

/-- C4: after lookup and the minimum-amount check, the usage-limit check of
`validateCoupon` fails with `UsageLimitExceeded` exactly when a positive
`usageLimit` is set and `timesUsed ≥ usageLimit` (so it fails at
`timesUsed = usageLimit` and passes at `timesUsed = usageLimit - 1`); with
`usageLimit = null` it never fails. -/
theorem C4_usageLimit_iff (store : List Offer) (code : String)
    (orderAmount : ℚ) (userId : Option String) (now : ℤ) (o : Offer)
    (hfind : store.find? (offerMatches code now) = some o)
    (hmin : ¬ orderAmount < o.minimumOrderAmount) :
    (o.usageLimit = none →
       validateCoupon store code orderAmount userId now ≠ .error .usageLimitExceeded)
    ∧ (∀ l : ℕ, o.usageLimit = some l → 0 < l →
        (validateCoupon store code orderAmount userId now = .error .usageLimitExceeded
          ↔ l ≤ o.timesUsed)) := by
  rw [validateCoupon_found_tail store code orderAmount userId now o hfind hmin]
  constructor
  · intro hnone
    have hhit : usageLimitHit o = false := by simp [usageLimitHit, hnone]
    rcases userCheck_cases o userId with huc | huc <;> simp [hhit, huc]
  · intro l hl hpos
    by_cases hle : l ≤ o.timesUsed
    · have hhit : usageLimitHit o = true := by
        simp [usageLimitHit, hl, hle, Nat.pos_iff_ne_zero.mp hpos]
      simp [hhit, hle]
    · have hhit : usageLimitHit o = false := by
        simp [usageLimitHit, hl, hle]
      refine iff_of_false ?_ hle
      rcases userCheck_cases o userId with huc | huc <;> simp [hhit, huc]

/-- Witness for `C4_usageLimit_iff` at the limit-1 offer with one use left:
neither side of the instantiated equivalence holds (`timesUsed = 0 < 1`). -/
theorem C4_usageLimit_iff_witness :
    validateCoupon [limitOneOffer] "LIMIT1" 50 none 5 = .error .usageLimitExceeded
      ↔ 1 ≤ limitOneOffer.timesUsed :=
  (C4_usageLimit_iff [limitOneOffer] "LIMIT1" 50 none 5 limitOneOffer rfl
    (by norm_num [limitOneOffer])).2 1 rfl (by norm_num)

/-- C5: `applyCoupon` increments `timesUsed` by exactly 1 and appends exactly
one `usageHistory` entry carrying the call's `userId`, `orderId` and
`discountApplied` (every other entry is kept, in order, and no policy field
changes). -/
theorem C5_applyCoupon_roundtrip (o : Offer) (userId : String)
    (orderId : Option String) (discountApplied : ℚ) (now : ℤ) :
    (applyCoupon o userId orderId discountApplied now).timesUsed = o.timesUsed + 1
    ∧ (applyCoupon o userId orderId discountApplied now).usageHistory
        = o.usageHistory ++
          [{ userId := userId, orderId := orderId,
             discountApplied := discountApplied, appliedAt := now }] := by
  exact ⟨rfl, rfl⟩

/-- C6: the discount never exceeds the order amount; the final
`Math.min(discount, orderAmount)` makes this hold for every offer and every
`orderAmount ≥ 0`. -/
theorem C6_discount_le_orderAmount (o : Offer) (orderAmount : ℚ)
    (h : 0 ≤ orderAmount) :
    calculateDiscount o orderAmount ≤ orderAmount := by
  unfold calculateDiscount
  exact min_le_right _ _

/-- Witness for `C6_discount_le_orderAmount` at the WELCOME10 offer and
`orderAmount = 600`. -/
theorem C6_discount_le_orderAmount_witness :
    calculateDiscount welcome10 600 ≤ 600 :=
  C6_discount_le_orderAmount welcome10 600 (by norm_num)

/-- C7: `timesUsed = length usageHistory` is preserved by `applyCoupon`:
both sides grow by exactly one. -/
theorem C7_invariant_preserved (o : Offer) (userId : String)
    (orderId : Option String) (discountApplied : ℚ) (now : ℤ)
    (h : o.timesUsed = o.usageHistory.length) :
    (applyCoupon o userId orderId discountApplied now).timesUsed
      = (applyCoupon o userId orderId discountApplied now).usageHistory.length := by
  simp [applyCoupon, h]

/-- Witness for `C7_invariant_preserved` at the WELCOME10 offer (fresh:
`timesUsed = 0`, empty history). -/
theorem C7_invariant_preserved_witness :
    (applyCoupon welcome10 "alice" none 60 5).timesUsed
      = (applyCoupon welcome10 "alice" none 60 5).usageHistory.length :=
  C7_invariant_preserved welcome10 "alice" none 60 5 rfl

/-- C8: validation is a pure read.  `validateCoupon` is a function of the
store alone (it calls no write operation: the only `save` in the engine is in
`applyCoupon`), and on success the offer it returns is *literally* the stored
document found by the lookup — an element of the store, every field intact. -/
theorem C8_validate_pure_read (store : List Offer) (code : String)
    (orderAmount : ℚ) (userId : Option String) (now : ℤ) (o : Offer)
    (h : validateCoupon store code orderAmount userId now = .ok o) :
    store.find? (offerMatches code now) = some o ∧ o ∈ store := by
  have hfind : store.find? (offerMatches code now) = some o := by
    cases hf : store.find? (offerMatches code now) with
    | none =>
      simp only [validateCoupon, hf] at h
      cases h
    | some off =>
      simp only [validateCoupon, hf] at h
      split at h
      · cases h
      · split at h
        · cases h
        · rcases userCheck_cases off userId with huc | huc <;> rw [huc] at h
          · cases h; rfl
          · cases h
  exact ⟨hfind, List.mem_of_find?_eq_some hfind⟩

/-- Witness for `C8_validate_pure_read`: a successful validation of the
WELCOME10 offer returns exactly the stored document. -/
theorem C8_validate_pure_read_witness :
    [welcome10].find? (offerMatches "welcome10" 5) = some welcome10
    ∧ welcome10 ∈ [welcome10] :=
  C8_validate_pure_read [welcome10] "welcome10" 600 none 5 welcome10 rfl

/-- C9: the lookup failure leaks nothing.  Whether no stored offer carries the
code at all (`store₁`) or some offer carries it but is inactive or outside its
date window (`store₂`, which does contain the code), `validateCoupon` fails
with the one generic `notFoundOrExpired` error — the identical error value
with the identical message in both runs. -/
theorem C9_notFound_indistinguishable (store₁ store₂ : List Offer)
    (code : String) (orderAmount : ℚ) (userId : Option String) (now : ℤ)
    (h₁ : ∀ o ∈ store₁, o.code ≠ jsToUpperCase code)
    (h₂ : ∀ o ∈ store₂, o.code = jsToUpperCase code →
            ¬(o.isActive = true ∧ o.startDate ≤ now ∧ now ≤ o.endDate))
    (hex : ∃ o ∈ store₂, o.code = jsToUpperCase code) :
    validateCoupon store₁ code orderAmount userId now = .error .notFoundOrExpired
    ∧ validateCoupon store₂ code orderAmount userId now = .error .notFoundOrExpired
    ∧ validateCoupon store₁ code orderAmount userId now
        = validateCoupon store₂ code orderAmount userId now := by
  have hf₁ : store₁.find? (offerMatches code now) = none := by
    rw [List.find?_eq_none]
    intro o ho
    simp only [offerMatches, Bool.and_eq_true, beq_iff_eq, decide_eq_true_eq]
    rintro ⟨⟨⟨hc, -⟩, -⟩, -⟩
    exact h₁ o ho hc
  have hf₂ : store₂.find? (offerMatches code now) = none := by
    rw [List.find?_eq_none]
    intro o ho
    simp only [offerMatches, Bool.and_eq_true, beq_iff_eq, decide_eq_true_eq]
    rintro ⟨⟨⟨hc, hact⟩, hs⟩, he⟩
    exact h₂ o ho hc ⟨hact, hs, he⟩
  refine ⟨?_, ?_, ?_⟩
  · unfold validateCoupon; rw [hf₁]
  · unfold validateCoupon; rw [hf₂]
  · unfold validateCoupon; rw [hf₁, hf₂]

/-- Witness for `C9_notFound_indistinguishable`: a store without the code
`GONE` versus a store holding a deactivated `GONE` offer produce the same
generic failure. -/
theorem C9_notFound_indistinguishable_witness :
    validateCoupon [welcome10] "gone" 600 none 5 = .error .notFoundOrExpired
    ∧ validateCoupon [{ welcome10 with code := "GONE", isActive := false }]
        "gone" 600 none 5 = .error .notFoundOrExpired
    ∧ validateCoupon [welcome10] "gone" 600 none 5
        = validateCoupon [{ welcome10 with code := "GONE", isActive := false }]
            "gone" 600 none 5 :=
  C9_notFound_indistinguishable [welcome10]
    [{ welcome10 with code := "GONE", isActive := false }] "gone" 600 none 5
    (by decide) (by decide) (by decide)

/-- C10 (code bug): the source's `applyCoupon` is an unconditional
read-modify-write — its result type is a plain `Offer`, it consults neither
`usageLimit` nor `timesUsed`, and no `RedemptionRace` error exists anywhere in
the code — so any two applications against the `usageLimit = 1`,
`timesUsed = 0` offer both succeed and drive `timesUsed` to `2`, past the
limit, where the claim requires one success, one `RedemptionRace` failure and
`timesUsed ≤ 1`. -/
theorem C10_applyCoupon_no_redemption_race :
    limitOneOffer.usageLimit = some 1
    ∧ limitOneOffer.timesUsed = 0
    ∧ (applyCoupon (applyCoupon limitOneOffer "u1" none 10 1) "u2" none 10 2).timesUsed
        = 2 := by
  exact ⟨rfl, rfl, rfl⟩

end OfferEngine
